import Mathlib

/-!
Shallow embedding of the Smart Vehicle IDS telemetry/detection/aggregation
core (src/app.py).  Randomness is modelled by an explicit oracle of draws;
each draw carries a validity predicate stating the range contract of the
Python RNG primitive that produced it (`random.random()` is in [0,1),
`random.uniform(a,b)` is in [a,b], `random.randint(a,b)` is in [a,b]).
Python floats are modelled as rationals; `round(x, 2)` is `round2`.
-/

namespace SmartVehicleIDS

/-- `ECU_NAMES` from src/app.py. -/
def ECU_NAMES : List String :=
  ["Engine ECU", "Brake ECU", "Steering ECU", "Infotainment", "Telematics", "ADAS ECU"]

/-- `ATTACK_TYPES` from src/app.py (unused by the core logic, kept for completeness). -/
def ATTACK_TYPES : List String :=
  ["Spoofing", "Replay", "DoS", "Fuzzing", "Sensor Tampering"]

/-- Python `round(q, 2)`: round to two decimal places. -/
def round2 (q : ℚ) : ℚ := (round (q * 100) : ℤ) / 100

/-- One synthetic CAN frame, as built by `generate_can_packets`. -/
structure CanPacket where
  timestamp : String
  id : String
  ecu : String
  dlc : Nat
  data : String
  anomaly : Bool
  deriving DecidableEq, Repr

/-- One alert, as built by `evaluate_rules`. -/
structure Alert where
  level : String
  source : String
  message : String
  attack_type : String
  attacker_ip : String
  deriving DecidableEq, Repr

/-- One heatmap cell `{"name": ..., "status": ...}` of a snapshot. -/
structure HeatmapCell where
  name : String
  status : String
  deriving DecidableEq, Repr

/-- One telemetry snapshot, as built by `generate_telemetry`. -/
structure Snapshot where
  speed : Int
  brake_status : String
  ecu_health : List (String × ℚ)
  can_anomaly_score : ℚ
  attack_active : Bool
  heatmap : List HeatmapCell
  security_alerts : List Alert
  can_packets : List CanPacket
  forced_attack : Bool
  timestamp : String
  deriving DecidableEq, Repr

/-- One timeline entry appended by `update_analytics`. -/
structure TimelineEntry where
  timestamp : String
  total_alerts : Nat
  critical_alerts : Nat
  attack_active : Bool
  deriving DecidableEq, Repr

/-- The process-wide `ANALYTICS` state.  Python `Counter`s are total maps
from keys to counts (missing key = 0). -/
structure Analytics where
  attack_counts_by_ecu : String → Nat
  attack_counts_by_type : String → Nat
  attack_counts_by_attacker : String → Nat
  events_timeline : List TimelineEntry

/-- The initial `ANALYTICS` value: empty counters, empty timeline. -/
def initAnalytics : Analytics :=
  { attack_counts_by_ecu := fun _ => 0
    attack_counts_by_type := fun _ => 0
    attack_counts_by_attacker := fun _ => 0
    events_timeline := [] }

/-- `counter[k] += 1` on a Python `Counter` modelled as a total map. -/
def incr (f : String → Nat) (k : String) : String → Nat :=
  fun x => if x = k then f x + 1 else f x

/-- Random draws consumed by one iteration of the loop in `generate_can_packets`. -/
structure PacketDraw where
  ts : String
  ecuIdx : Nat
  idDraw : Nat
  bytes : List Nat
  anomalyDraw : ℚ

/-- Lowercase hex rendering, as Python `hex(n)` (for positive `n`). -/
def hexLower (n : Nat) : String := "0x" ++ String.mk (Nat.toDigits 16 n)

/-- Uppercase two-digit hex rendering, as Python `f"\x7bb:02X\x7d"` for a byte. -/
def hexByte (b : Nat) : String :=
  let s := String.map Char.toUpper (String.mk (Nat.toDigits 16 b))
  if s.length = 1 then "0" ++ s else s

/-- `generate_can_packets(attack_hint)` from src/app.py: 15 frames, each with
anomaly probability 0.35 under the hint and 0.03 otherwise. -/
def generate_can_packets (attack_hint : Bool) (draws : Nat → PacketDraw) : List CanPacket :=
  (List.range 15).map fun i =>
    let d := draws i
    let anomaly_prob : ℚ := if attack_hint then 35/100 else 3/100
    { timestamp := d.ts
      id := hexLower d.idDraw
      ecu := ECU_NAMES.getD d.ecuIdx ""
      dlc := 8
      data := String.intercalate " " (d.bytes.map hexByte)
      anomaly := decide (d.anomalyDraw < anomaly_prob) }

/-- `evaluate_rules(snapshot, prev_snapshot, can_packets)` from src/app.py.
Each rule yields a pair: its `rule_attack` contribution and the alert it
appends (the per-alert `random_ip()` draws are the three `_ip` arguments). -/
def evaluate_rules (snapshot : Snapshot) (prev_snapshot : Option Snapshot)
    (can_packets : List CanPacket) (can_ip phys_ip brake_ip : String) :
    Bool × List Alert :=
  let anomaly_frames := can_packets.filter fun p => p.anomaly
  let can : Bool × List Alert :=
    if 8 ≤ anomaly_frames.length then
      (true,
       [{ level := "HIGH", source := "Telematics",
          message := toString anomaly_frames.length ++ " anomalous CAN frames detected",
          attack_type := "DoS/Fuzzing", attacker_ip := can_ip }])
    else (false, [])
  let speed := snapshot.speed
  let phys : Bool × List Alert :=
    match prev_snapshot with
    | some prev =>
      let delta := |speed - prev.speed|
      if 60 < delta then
        (true,
         [{ level := "HIGH", source := "Engine ECU",
            message := "Implausible speed jump Δv=" ++ toString delta ++ " km/h",
            attack_type := "Physical Implausibility", attacker_ip := phys_ip }])
      else (false, [])
    | none => (false, [])
  let brake : Bool × List Alert :=
    if snapshot.brake_status = "ON" ∧ 120 < speed then
      (true,
       [{ level := "CRITICAL", source := "Brake ECU",
          message := "Brake engaged at " ++ toString speed ++ " km/h",
          attack_type := "Safety Violation", attacker_ip := brake_ip }])
    else (false, [])
  (can.1 || phys.1 || brake.1, can.2 ++ phys.2 ++ brake.2)

/-- The counter updates done for one alert inside `update_analytics`'s loop. -/
def recordAlert (st : Analytics) (a : Alert) : Analytics :=
  let st :=
    if a.source ∈ ECU_NAMES then
      { st with attack_counts_by_ecu := incr st.attack_counts_by_ecu a.source }
    else st
  let st := { st with attack_counts_by_type := incr st.attack_counts_by_type a.attack_type }
  { st with attack_counts_by_attacker := incr st.attack_counts_by_attacker a.attacker_ip }

/-- `update_analytics(alerts, attack_active)` from src/app.py (`ts` is the
wall-clock timestamp string it reads): append one timeline entry, pop the
oldest if the timeline now exceeds 200 entries, then bump the counters. -/
def update_analytics (alerts : List Alert) (attack_active : Bool) (ts : String)
    (st : Analytics) : Analytics :=
  let entry : TimelineEntry :=
    { timestamp := ts
      total_alerts := alerts.length
      critical_alerts := (alerts.filter fun a => a.level = "HIGH" ∨ a.level = "CRITICAL").length
      attack_active := attack_active }
  let timeline := st.events_timeline ++ [entry]
  let timeline := if 200 < timeline.length then timeline.drop 1 else timeline
  alerts.foldl recordAlert { st with events_timeline := timeline }

/-- The random draws consumed by one call to `generate_telemetry` (and the
timestamp strings it formats). -/
structure Oracle where
  speedDraw : Int
  brakeDraw : ℚ
  healthDraw : String → ℚ
  anomalyDraw : ℚ
  hintDraw : ℚ
  packetDraws : Nat → PacketDraw
  warnHealth : String → ℚ
  forcedScore : ℚ
  forcedHealth : String → ℚ
  can_ip : String
  phys_ip : String
  brake_ip : String
  ts : String

/-- Range contract of every draw: each Python RNG primitive returns a value
inside its documented range. -/
def Oracle.Valid (o : Oracle) : Prop :=
  0 ≤ o.speedDraw ∧ o.speedDraw ≤ 140 ∧
  0 ≤ o.brakeDraw ∧ o.brakeDraw < 1 ∧
  (∀ e ∈ ECU_NAMES, 8/10 ≤ o.healthDraw e ∧ o.healthDraw e ≤ 1) ∧
  0 ≤ o.anomalyDraw ∧ o.anomalyDraw < 1 ∧
  (∀ e ∈ ECU_NAMES, 3/10 ≤ o.warnHealth e ∧ o.warnHealth e ≤ 7/10) ∧
  85/100 ≤ o.forcedScore ∧ o.forcedScore ≤ 1 ∧
  (∀ e ∈ ECU_NAMES, 2/10 ≤ o.forcedHealth e ∧ o.forcedHealth e ≤ 5/10)

instance (o : Oracle) : Decidable o.Valid := by
  unfold Oracle.Valid; infer_instance

/-- The snapshot literal built by `generate_telemetry` before rule evaluation. -/
def initial_snapshot (o : Oracle) (FORCE_ATTACK : Bool) : Snapshot :=
  let speed := o.speedDraw
  let brake_status := if o.brakeDraw < 1/4 then "ON" else "OFF"
  let ecu_health := ECU_NAMES.map fun e => (e, round2 (o.healthDraw e))
  let base_anomaly := o.anomalyDraw * (2/10)
  let can_anomaly_score := base_anomaly
  let attack_hint := FORCE_ATTACK || decide (o.hintDraw < 1/10)
  let can_packets := generate_can_packets attack_hint o.packetDraws
  { speed := speed
    brake_status := brake_status
    ecu_health := ecu_health
    can_anomaly_score := round2 can_anomaly_score
    attack_active := false
    heatmap := ECU_NAMES.map fun e => { name := e, status := "ok" }
    security_alerts := []
    can_packets := can_packets
    forced_attack := FORCE_ATTACK
    timestamp := o.ts }

/-- `generate_telemetry()` from src/app.py, as a function of its random
draws `o`, the global `FORCE_ATTACK` flag, the global `LAST_SNAPSHOT`, and
the global `ANALYTICS` state.  Returns the new snapshot (which becomes the
next `LAST_SNAPSHOT`) and the updated analytics state. -/
def generate_telemetry (o : Oracle) (FORCE_ATTACK : Bool) (LAST_SNAPSHOT : Option Snapshot)
    (st : Analytics) : Snapshot × Analytics :=
  let snapshot := initial_snapshot o FORCE_ATTACK
  let r := evaluate_rules snapshot LAST_SNAPSHOT snapshot.can_packets o.can_ip o.phys_ip o.brake_ip
  let snapshot := { snapshot with security_alerts := snapshot.security_alerts ++ r.2 }
  let snapshot :=
    if r.1 then
      { snapshot with
        attack_active := true
        heatmap := snapshot.heatmap.map fun c =>
          if c.name ∈ ["Engine ECU", "Brake ECU", "Telematics"] then
            { c with status := "warning" }
          else c
        ecu_health := snapshot.ecu_health.map fun p =>
          if p.1 ∈ ["Engine ECU", "Brake ECU", "Telematics"] then
            (p.1, round2 (o.warnHealth p.1))
          else p }
    else snapshot
  let snapshot :=
    if FORCE_ATTACK then
      { snapshot with
        attack_active := true
        can_anomaly_score := round2 o.forcedScore
        heatmap := snapshot.heatmap.map fun c => { c with status := "compromised" }
        ecu_health := snapshot.ecu_health.map fun p => (p.1, round2 (o.forcedHealth p.1)) }
    else snapshot
  let st := update_analytics snapshot.security_alerts snapshot.attack_active o.ts st
  (snapshot, st)

/-- The `/api/force_attack` route handler from src/app.py.  `body` is the
parsed JSON request body: `some j` is a parsed JSON object, while `none`
models an absent, unparseable or non-dict body, on which `request.json` /
`.get` raises before the assignment runs, so the handler errors out and the
global `FORCE_ATTACK` keeps its previous value.  Given the current
`FORCE_ATTACK` value, returns the resulting global state together with the
echoed `forced_attack` response, or the propagated error. -/
def force_attack (body : Option (List (String × String))) (FORCE_ATTACK : Bool) :
    Bool × Except Unit Bool :=
  match body with
  | none => (FORCE_ATTACK, Except.error ())
  | some j =>
    let forced := decide (j.lookup "mode" = some "on")
    (forced, Except.ok forced)

/-! ## Rounding lemmas -/

lemma round_mono_q {a b : ℚ} (h : a ≤ b) : (round a : ℤ) ≤ round b := by
  rw [round_eq, round_eq]
  exact Int.floor_le_floor (by linarith)

/-- `round2` maps a rational between two hundredths to a value between them. -/
lemma round2_bounds {q : ℚ} {m n : ℤ} (h1 : (m : ℚ)/100 ≤ q) (h2 : q ≤ (n : ℚ)/100) :
    (m : ℚ)/100 ≤ round2 q ∧ round2 q ≤ (n : ℚ)/100 := by
  unfold round2
  have hm : (m : ℤ) ≤ round (q * 100) := by
    have := round_mono_q (a := (m : ℚ)) (b := q * 100) (by linarith)
    simpa using this
  have hn : round (q * 100) ≤ (n : ℤ) := by
    have := round_mono_q (a := q * 100) (b := (n : ℚ)) (by linarith)
    simpa using this
  constructor
  · have : (m : ℚ) ≤ ((round (q * 100) : ℤ) : ℚ) := by exact_mod_cast hm
    linarith
  · have : ((round (q * 100) : ℤ) : ℚ) ≤ (n : ℚ) := by exact_mod_cast hn
    linarith

/-! ## Theorems -/

/-- In `evaluate_rules`, `rule_attack` is set exactly when some rule appends
an alert: the returned flag is true iff the returned alert list is nonempty. -/
lemma rule_attack_iff_alerts (s : Snapshot) (prev : Option Snapshot)
    (cp : List CanPacket) (ip1 ip2 ip3 : String) :
    (evaluate_rules s prev cp ip1 ip2 ip3).1 = true ↔
      (evaluate_rules s prev cp ip1 ip2 ip3).2 ≠ [] := by
  unfold evaluate_rules
  rcases prev with _ | p <;> dsimp only <;> split_ifs <;> simp_all

/-- C2: for every batch of 15 CAN frames, `evaluate_rules` raises exactly one
CAN-anomaly alert — level HIGH, source Telematics, attack-type "DoS/Fuzzing",
message reporting the exact anomalous-frame count — iff at least 8 frames have
the anomaly flag set, and none with 7 or fewer. -/
theorem can_anomaly_rule_iff (s : Snapshot) (prev : Option Snapshot)
    (cp : List CanPacket) (ip1 ip2 ip3 : String) (_hlen : cp.length = 15) :
    ((evaluate_rules s prev cp ip1 ip2 ip3).2.filter
        fun a => a.attack_type = "DoS/Fuzzing") =
      (if 8 ≤ (cp.filter fun p => p.anomaly).length then
        [{ level := "HIGH", source := "Telematics",
           message := toString (cp.filter fun p => p.anomaly).length ++
             " anomalous CAN frames detected",
           attack_type := "DoS/Fuzzing", attacker_ip := ip1 }]
      else []) := by
  unfold evaluate_rules
  rcases prev with _ | p <;> simp only [List.filter_append] <;>
    split_ifs <;> simp_all [List.filter]

/-- C5: the physics rule raises a HIGH Engine-ECU alert with attack-type
"Physical Implausibility" and a message reporting the exact delta iff a
previous snapshot exists and the absolute speed delta exceeds 60; with no
previous snapshot it never fires. -/
theorem physics_rule_iff (s : Snapshot) (prev : Option Snapshot)
    (cp : List CanPacket) (ip1 ip2 ip3 : String) :
    ((evaluate_rules s prev cp ip1 ip2 ip3).2.filter
        fun a => a.attack_type = "Physical Implausibility") =
      (match prev with
      | some p =>
        if 60 < |s.speed - p.speed| then
          [{ level := "HIGH", source := "Engine ECU",
             message := "Implausible speed jump Δv=" ++ toString |s.speed - p.speed| ++
               " km/h",
             attack_type := "Physical Implausibility", attacker_ip := ip2 }]
        else []
      | none => []) := by
  unfold evaluate_rules
  rcases prev with _ | p <;> simp only [List.filter_append] <;>
    split_ifs <;> simp_all [List.filter]

/-- C6: the safety-violation rule raises a CRITICAL Brake-ECU alert with
attack-type "Safety Violation" iff the brake status is "ON" and the speed is
strictly greater than 120 (so it does not fire at speed 120 and fires at 121). -/
theorem safety_rule_iff (s : Snapshot) (prev : Option Snapshot)
    (cp : List CanPacket) (ip1 ip2 ip3 : String) :
    ((evaluate_rules s prev cp ip1 ip2 ip3).2.filter
        fun a => a.attack_type = "Safety Violation") =
      (if s.brake_status = "ON" ∧ 120 < s.speed then
        [{ level := "CRITICAL", source := "Brake ECU",
           message := "Brake engaged at " ++ toString s.speed ++ " km/h",
           attack_type := "Safety Violation", attacker_ip := ip3 }]
      else []) := by
  unfold evaluate_rules
  rcases prev with _ | p <;> simp only [List.filter_append] <;>
    split_ifs <;> simp_all [List.filter]

lemma init_security_alerts (o : Oracle) (F : Bool) :
    (initial_snapshot o F).security_alerts = [] := rfl

lemma init_attack_active (o : Oracle) (F : Bool) :
    (initial_snapshot o F).attack_active = false := rfl

lemma init_forced_attack (o : Oracle) (F : Bool) :
    (initial_snapshot o F).forced_attack = F := rfl

lemma init_heatmap (o : Oracle) (F : Bool) :
    (initial_snapshot o F).heatmap =
      ECU_NAMES.map fun e => { name := e, status := "ok" } := rfl

lemma init_ecu_health (o : Oracle) (F : Bool) :
    (initial_snapshot o F).ecu_health =
      ECU_NAMES.map fun e => (e, round2 (o.healthDraw e)) := rfl

lemma init_can_anomaly_score (o : Oracle) (F : Bool) :
    (initial_snapshot o F).can_anomaly_score = round2 (o.anomalyDraw * (2/10)) := rfl

/-- The alerts attached to the tick's snapshot are exactly the alerts
returned by `evaluate_rules`. -/
lemma generate_security_alerts (o : Oracle) (F : Bool) (last : Option Snapshot)
    (st : Analytics) :
    (generate_telemetry o F last st).1.security_alerts =
      (evaluate_rules (initial_snapshot o F) last (initial_snapshot o F).can_packets
        o.can_ip o.phys_ip o.brake_ip).2 := by
  unfold generate_telemetry
  cases hr : (evaluate_rules (initial_snapshot o F) last (initial_snapshot o F).can_packets
      o.can_ip o.phys_ip o.brake_ip).1 <;>
    cases F <;> simp [hr, init_security_alerts]

/-- The tick's `attack_active` is the rule verdict OR-ed with the force flag. -/
lemma generate_attack_active (o : Oracle) (F : Bool) (last : Option Snapshot)
    (st : Analytics) :
    (generate_telemetry o F last st).1.attack_active =
      ((evaluate_rules (initial_snapshot o F) last (initial_snapshot o F).can_packets
        o.can_ip o.phys_ip o.brake_ip).1 || F) := by
  unfold generate_telemetry
  cases hr : (evaluate_rules (initial_snapshot o F) last (initial_snapshot o F).can_packets
      o.can_ip o.phys_ip o.brake_ip).1 <;>
    cases F <;> simp [hr, init_attack_active]

/-- The tick's `forced_attack` field mirrors the force flag at generation time. -/
lemma generate_forced_attack (o : Oracle) (F : Bool) (last : Option Snapshot)
    (st : Analytics) :
    (generate_telemetry o F last st).1.forced_attack = F := by
  unfold generate_telemetry
  cases hr : (evaluate_rules (initial_snapshot o F) last (initial_snapshot o F).can_packets
      o.can_ip o.phys_ip o.brake_ip).1 <;>
    cases F <;> simp [hr, init_forced_attack]

/-- C1: a tick's snapshot has `attack_active` true iff at least one detection
rule fired (i.e. its alert list is nonempty) or the force-attack switch was on
at generation time. -/
theorem attack_active_iff_rule_or_forced (o : Oracle) (F : Bool)
    (last : Option Snapshot) (st : Analytics) :
    (generate_telemetry o F last st).1.attack_active = true ↔
      ((generate_telemetry o F last st).1.security_alerts ≠ [] ∨
        (generate_telemetry o F last st).1.forced_attack = true) := by
  rw [generate_attack_active, generate_security_alerts, generate_forced_attack]
  rw [Bool.or_eq_true, rule_attack_iff_alerts]

/-- Folding the per-alert counter updates never touches the timeline. -/
lemma foldl_recordAlert_timeline (alerts : List Alert) (st : Analytics) :
    (alerts.foldl recordAlert st).events_timeline = st.events_timeline := by
  induction alerts generalizing st with
  | nil => rfl
  | cons a as ih =>
    rw [List.foldl_cons, ih]
    unfold recordAlert
    split <;> rfl

/-- C3: each `update_analytics` call appends exactly one timeline entry, and
evicts exactly the oldest entry (index 0) when the timeline was already at
200; the timeline length never exceeds 200 and eviction is strict FIFO. -/
theorem timeline_append_evict (alerts : List Alert) (active : Bool) (ts : String)
    (st : Analytics) (h : st.events_timeline.length ≤ 200) :
    (update_analytics alerts active ts st).events_timeline =
      (if st.events_timeline.length = 200 then
        st.events_timeline.drop 1 ++
          [{ timestamp := ts, total_alerts := alerts.length,
             critical_alerts :=
               (alerts.filter fun a => a.level = "HIGH" ∨ a.level = "CRITICAL").length,
             attack_active := active }]
      else
        st.events_timeline ++
          [{ timestamp := ts, total_alerts := alerts.length,
             critical_alerts :=
               (alerts.filter fun a => a.level = "HIGH" ∨ a.level = "CRITICAL").length,
             attack_active := active }]) ∧
    (update_analytics alerts active ts st).events_timeline.length ≤ 200 := by
  unfold update_analytics
  rw [foldl_recordAlert_timeline]
  dsimp only
  set E : TimelineEntry :=
    { timestamp := ts, total_alerts := alerts.length,
      critical_alerts :=
        (alerts.filter fun a => a.level = "HIGH" ∨ a.level = "CRITICAL").length,
      attack_active := active } with hE
  by_cases h200 : st.events_timeline.length = 200
  · rw [if_pos h200, if_pos (by simp; omega)]
    refine ⟨List.drop_append_of_le_length (by omega), ?_⟩
    rw [List.drop_append_of_le_length (by omega)]
    simp
    omega
  · rw [if_neg h200, if_neg (by simp; omega)]
    refine ⟨rfl, ?_⟩
    simp
    omega

/-- Closed witness for C3 at a concrete state below capacity. -/
theorem timeline_append_evict_witness :
    (update_analytics [] false "t" initAnalytics).events_timeline =
      (if initAnalytics.events_timeline.length = 200 then
        initAnalytics.events_timeline.drop 1 ++
          [{ timestamp := "t", total_alerts := ([] : List Alert).length,
             critical_alerts :=
               (([] : List Alert).filter fun a =>
                 a.level = "HIGH" ∨ a.level = "CRITICAL").length,
             attack_active := false }]
      else
        initAnalytics.events_timeline ++
          [{ timestamp := "t", total_alerts := ([] : List Alert).length,
             critical_alerts :=
               (([] : List Alert).filter fun a =>
                 a.level = "HIGH" ∨ a.level = "CRITICAL").length,
             attack_active := false }]) ∧
    (update_analytics [] false "t" initAnalytics).events_timeline.length ≤ 200 :=
  timeline_append_evict [] false "t" initAnalytics (by decide)

/-- C7 counterexample: on a malformed (absent/unparseable) body with the
switch currently on, the handler raises and leaves the switch on — it does
not set the switch to false and return that state, refuting the claim at
this input. -/
theorem force_attack_malformed_raises :
    force_attack none true = (true, Except.error ()) ∧
      force_attack none true ≠ (false, Except.ok false) :=
  ⟨rfl, fun h => by simp [force_attack] at h⟩

/-- C7 (amended): for every successfully parsed JSON object body whose
"mode" value is missing or anything other than "on", the handler sets the
force-attack switch to false and echoes that state without raising; an
absent, unparseable or non-dict body instead raises and leaves the switch
unchanged. -/
theorem force_attack_parsed_non_on_is_off (j : List (String × String)) (F : Bool)
    (h : j.lookup "mode" ≠ some "on") :
    force_attack (some j) F = (false, Except.ok false) := by
  unfold force_attack
  simp [h]

/-- Closed witness for the amended C7 at a parsed body carrying mode "off". -/
theorem force_attack_parsed_non_on_is_off_witness :
    force_attack (some [("mode", "off")]) true = (false, Except.ok false) :=
  force_attack_parsed_non_on_is_off [("mode", "off")] true (by decide)

/-- A concrete snapshot, used only to instantiate witnesses. -/
def sampleSnapshot : Snapshot :=
  { speed := 0, brake_status := "OFF", ecu_health := [], can_anomaly_score := 0,
    attack_active := false, heatmap := [], security_alerts := [], can_packets := [],
    forced_attack := false, timestamp := "" }

/-- A concrete batch of 15 CAN frames, 8 of them anomalous. -/
def samplePackets : List CanPacket :=
  (List.range 15).map fun i =>
    { timestamp := "", id := "0x100", ecu := "Telematics", dlc := 8, data := "",
      anomaly := decide (i < 8) }

/-- Closed witness for C2 at a concrete 15-frame batch with 8 anomalies. -/
theorem can_anomaly_rule_iff_witness :
    samplePackets.length = 15 ∧
    ((evaluate_rules sampleSnapshot none samplePackets "a" "b" "c").2.filter
        fun a => a.attack_type = "DoS/Fuzzing") =
      (if 8 ≤ (samplePackets.filter fun p => p.anomaly).length then
        [{ level := "HIGH", source := "Telematics",
           message := toString (samplePackets.filter fun p => p.anomaly).length ++
             " anomalous CAN frames detected",
           attack_type := "DoS/Fuzzing", attacker_ip := "a" }]
      else []) :=
  ⟨by decide, can_anomaly_rule_iff sampleSnapshot none samplePackets "a" "b" "c" (by decide)⟩

/-- Under force-attack, the final heatmap marks every ECU "compromised". -/
lemma forced_heatmap_eq (o : Oracle) (last : Option Snapshot) (st : Analytics) :
    (generate_telemetry o true last st).1.heatmap =
      ECU_NAMES.map fun e => { name := e, status := "compromised" } := by
  unfold generate_telemetry
  cases hr : (evaluate_rules (initial_snapshot o true) last (initial_snapshot o true).can_packets
      o.can_ip o.phys_ip o.brake_ip).1 <;>
    simp [hr, init_heatmap, List.map_map, Function.comp_def, apply_ite, ite_self]

/-- Under force-attack, every ECU's final health is the rounded forced draw. -/
lemma forced_health_eq (o : Oracle) (last : Option Snapshot) (st : Analytics) :
    (generate_telemetry o true last st).1.ecu_health =
      ECU_NAMES.map fun e => (e, round2 (o.forcedHealth e)) := by
  unfold generate_telemetry
  cases hr : (evaluate_rules (initial_snapshot o true) last (initial_snapshot o true).can_packets
      o.can_ip o.phys_ip o.brake_ip).1 <;>
    simp [hr, init_ecu_health, List.map_map, Function.comp_def, apply_ite, ite_self]

/-- Under force-attack, the final anomaly score is the rounded forced draw. -/
lemma forced_score_eq (o : Oracle) (last : Option Snapshot) (st : Analytics) :
    (generate_telemetry o true last st).1.can_anomaly_score = round2 o.forcedScore := by
  unfold generate_telemetry
  cases hr : (evaluate_rules (initial_snapshot o true) last (initial_snapshot o true).can_packets
      o.can_ip o.phys_ip o.brake_ip).1 <;>
    simp [hr]

/-- C4: every tick generated under the force-attack switch has `attack_active`
true, every heatmap entry "compromised", CAN anomaly score in [0.85, 1.0], and
every ECU health in [0.2, 0.5], regardless of whether any rule also fired. -/
theorem forced_attack_tick (o : Oracle) (last : Option Snapshot) (st : Analytics)
    (hv : o.Valid) :
    (generate_telemetry o true last st).1.attack_active = true ∧
    (∀ c ∈ (generate_telemetry o true last st).1.heatmap, c.status = "compromised") ∧
    ((85/100 : ℚ) ≤ (generate_telemetry o true last st).1.can_anomaly_score ∧
      (generate_telemetry o true last st).1.can_anomaly_score ≤ 1) ∧
    (∀ p ∈ (generate_telemetry o true last st).1.ecu_health,
      (2/10 : ℚ) ≤ p.2 ∧ p.2 ≤ 5/10) := by
  obtain ⟨-, -, -, -, -, -, -, -, hfs1, hfs2, hfh⟩ := hv
  refine ⟨?_, ?_, ?_, ?_⟩
  · rw [generate_attack_active]
    simp
  · rw [forced_heatmap_eq]
    intro c hc
    rw [List.mem_map] at hc
    obtain ⟨e, -, rfl⟩ := hc
    rfl
  · rw [forced_score_eq]
    have hb := @round2_bounds o.forcedScore 85 100 (by push_cast; linarith) (by push_cast; linarith)
    constructor
    · have := hb.1
      push_cast at this
      linarith
    · have := hb.2
      push_cast at this
      linarith
  · rw [forced_health_eq]
    intro p hp
    rw [List.mem_map] at hp
    obtain ⟨e, he, rfl⟩ := hp
    obtain ⟨h1, h2⟩ := hfh e he
    have hb := @round2_bounds (o.forcedHealth e) 20 50 (by push_cast; linarith) (by push_cast; linarith)
    constructor
    · have := hb.1
      push_cast at this
      linarith
    · have := hb.2
      push_cast at this
      linarith

/-- A concrete oracle with all draws inside their ranges, used only to
instantiate witnesses. -/
def sampleOracle : Oracle :=
  { speedDraw := 70, brakeDraw := 0, healthDraw := fun _ => 9/10, anomalyDraw := 0,
    hintDraw := 1/2,
    packetDraws := fun _ =>
      { ts := "", ecuIdx := 0, idDraw := 256, bytes := [0, 0, 0, 0, 0, 0, 0, 0],
        anomalyDraw := 1/2 },
    warnHealth := fun _ => 1/2, forcedScore := 9/10, forcedHealth := fun _ => 3/10,
    can_ip := "1.1.1.1", phys_ip := "2.2.2.2", brake_ip := "3.3.3.3", ts := "" }

/-- Closed witness for C4 at a concrete valid oracle. -/
theorem forced_attack_tick_witness :
    (generate_telemetry sampleOracle true none initAnalytics).1.attack_active = true ∧
    (∀ c ∈ (generate_telemetry sampleOracle true none initAnalytics).1.heatmap,
      c.status = "compromised") ∧
    ((85/100 : ℚ) ≤ (generate_telemetry sampleOracle true none initAnalytics).1.can_anomaly_score ∧
      (generate_telemetry sampleOracle true none initAnalytics).1.can_anomaly_score ≤ 1) ∧
    (∀ p ∈ (generate_telemetry sampleOracle true none initAnalytics).1.ecu_health,
      (2/10 : ℚ) ≤ p.2 ∧ p.2 ≤ 5/10) :=
  forced_attack_tick sampleOracle none initAnalytics
    (by norm_num [Oracle.Valid, sampleOracle, ECU_NAMES])

/-- Without force-attack, the anomaly score stays the rounded base draw. -/
lemma unforced_score_eq (o : Oracle) (last : Option Snapshot) (st : Analytics) :
    (generate_telemetry o false last st).1.can_anomaly_score =
      round2 (o.anomalyDraw * (2/10)) := by
  unfold generate_telemetry
  cases hr : (evaluate_rules (initial_snapshot o false) last (initial_snapshot o false).can_packets
      o.can_ip o.phys_ip o.brake_ip).1 <;>
    simp [hr, init_can_anomaly_score]

/-- Without force-attack, heatmap entries outside the degraded trio stay "ok". -/
lemma unforced_heatmap_frame (o : Oracle) (last : Option Snapshot) (st : Analytics) :
    ∀ c ∈ (generate_telemetry o false last st).1.heatmap,
      c.name ∉ (["Engine ECU", "Brake ECU", "Telematics"] : List String) →
        c.status = "ok" := by
  unfold generate_telemetry
  cases hr : (evaluate_rules (initial_snapshot o false) last (initial_snapshot o false).can_packets
      o.can_ip o.phys_ip o.brake_ip).1 <;>
    simp only [hr, if_true, if_false, Bool.false_eq_true, init_heatmap]
  · intro c hc hnot
    rw [List.mem_map] at hc
    obtain ⟨e, -, rfl⟩ := hc
    rfl
  · intro c hc hnot
    simp only [List.map_map, List.mem_map, Function.comp_def] at hc
    obtain ⟨e, -, rfl⟩ := hc
    by_cases htrio : e ∈ (["Engine ECU", "Brake ECU", "Telematics"] : List String)
    · exfalso
      apply hnot
      simp [htrio]
    · simp [htrio]

/-- Without force-attack, health entries outside the degraded trio keep the
rounded base health draw, and all keys come from `ECU_NAMES`. -/
lemma unforced_health_frame (o : Oracle) (last : Option Snapshot) (st : Analytics) :
    ∀ p ∈ (generate_telemetry o false last st).1.ecu_health,
      p.1 ∈ ECU_NAMES ∧
        (p.1 ∉ (["Engine ECU", "Brake ECU", "Telematics"] : List String) →
          p.2 = round2 (o.healthDraw p.1)) := by
  unfold generate_telemetry
  cases hr : (evaluate_rules (initial_snapshot o false) last (initial_snapshot o false).can_packets
      o.can_ip o.phys_ip o.brake_ip).1 <;>
    simp only [hr, if_true, if_false, Bool.false_eq_true, init_ecu_health]
  · intro p hp
    rw [List.mem_map] at hp
    obtain ⟨e, he, rfl⟩ := hp
    exact ⟨he, fun _ => rfl⟩
  · intro p hp
    simp only [List.map_map, List.mem_map, Function.comp_def] at hp
    obtain ⟨e, he, rfl⟩ := hp
    by_cases htrio : e ∈ (["Engine ECU", "Brake ECU", "Telematics"] : List String)
    · refine ⟨by simpa [htrio] using he, fun hnot => ?_⟩
      exfalso
      apply hnot
      simp [htrio]
    · exact ⟨by simpa [htrio] using he, fun _ => by simp [htrio]⟩

/-- C9: on a tick generated with the force-attack switch off, the anomaly
score is the rounded base draw and stays in [0, 0.2], and Steering ECU,
Infotainment and ADAS ECU keep heatmap status "ok" and their originally
sampled health in [0.8, 1.0], even when rules fire. -/
theorem unforced_tick_frame (o : Oracle) (last : Option Snapshot) (st : Analytics)
    (hv : o.Valid) :
    ((generate_telemetry o false last st).1.can_anomaly_score =
        round2 (o.anomalyDraw * (2/10)) ∧
      (0 : ℚ) ≤ (generate_telemetry o false last st).1.can_anomaly_score ∧
      (generate_telemetry o false last st).1.can_anomaly_score ≤ 2/10) ∧
    (∀ c ∈ (generate_telemetry o false last st).1.heatmap,
      c.name ∈ (["Steering ECU", "Infotainment", "ADAS ECU"] : List String) →
        c.status = "ok") ∧
    (∀ p ∈ (generate_telemetry o false last st).1.ecu_health,
      p.1 ∈ (["Steering ECU", "Infotainment", "ADAS ECU"] : List String) →
        p.2 = round2 (o.healthDraw p.1) ∧ (8/10 : ℚ) ≤ p.2 ∧ p.2 ≤ 1) := by
  obtain ⟨-, -, -, -, hh, ha1, ha2, -, -, -, -⟩ := hv
  have hdisj : ∀ s : String,
      s ∈ (["Steering ECU", "Infotainment", "ADAS ECU"] : List String) →
      s ∉ (["Engine ECU", "Brake ECU", "Telematics"] : List String) := by
    intro s hs
    simp only [List.mem_cons, List.not_mem_nil, or_false] at hs
    rcases hs with rfl | rfl | rfl <;> decide
  refine ⟨?_, ?_, ?_⟩
  · rw [unforced_score_eq]
    have hb := @round2_bounds (o.anomalyDraw * (2/10)) 0 20
      (by push_cast; linarith) (by push_cast; linarith)
    refine ⟨rfl, ?_, ?_⟩
    · have := hb.1
      push_cast at this
      linarith
    · have := hb.2
      push_cast at this
      linarith
  · intro c hc hmem
    exact unforced_heatmap_frame o last st c hc (hdisj c.name hmem)
  · intro p hp hmem
    obtain ⟨hkey, hval⟩ := unforced_health_frame o last st p hp
    have hv2 := hval (hdisj p.1 hmem)
    obtain ⟨h1, h2⟩ := hh p.1 hkey
    have hb := @round2_bounds (o.healthDraw p.1) 80 100
      (by push_cast; linarith) (by push_cast; linarith)
    refine ⟨hv2, ?_, ?_⟩
    · have := hb.1
      push_cast at this
      rw [hv2]
      linarith
    · have := hb.2
      push_cast at this
      rw [hv2]
      linarith

/-- Closed witness for C9 at a concrete valid oracle. -/
theorem unforced_tick_frame_witness :
    ((generate_telemetry sampleOracle false none initAnalytics).1.can_anomaly_score =
        round2 (sampleOracle.anomalyDraw * (2/10)) ∧
      (0 : ℚ) ≤ (generate_telemetry sampleOracle false none initAnalytics).1.can_anomaly_score ∧
      (generate_telemetry sampleOracle false none initAnalytics).1.can_anomaly_score ≤ 2/10) ∧
    (∀ c ∈ (generate_telemetry sampleOracle false none initAnalytics).1.heatmap,
      c.name ∈ (["Steering ECU", "Infotainment", "ADAS ECU"] : List String) →
        c.status = "ok") ∧
    (∀ p ∈ (generate_telemetry sampleOracle false none initAnalytics).1.ecu_health,
      p.1 ∈ (["Steering ECU", "Infotainment", "ADAS ECU"] : List String) →
        p.2 = round2 (sampleOracle.healthDraw p.1) ∧ (8/10 : ℚ) ≤ p.2 ∧ p.2 ≤ 1) :=
  unforced_tick_frame sampleOracle none initAnalytics
    (by norm_num [Oracle.Valid, sampleOracle, ECU_NAMES])

/-! ## Counter arithmetic -/

lemma recordAlert_ecu (st : Analytics) (a : Alert) (k : String) :
    (recordAlert st a).attack_counts_by_ecu k =
      st.attack_counts_by_ecu k +
        (if a.source = k ∧ a.source ∈ ECU_NAMES then 1 else 0) := by
  unfold recordAlert
  dsimp only
  by_cases hsrc : a.source ∈ ECU_NAMES
  · rw [if_pos hsrc]
    dsimp only
    unfold incr
    by_cases hk : k = a.source
    · subst hk
      rw [if_pos rfl, if_pos ⟨rfl, hsrc⟩]
    · rw [if_neg hk, if_neg fun hc => hk hc.1.symm, Nat.add_zero]
  · rw [if_neg hsrc, if_neg fun hc => hsrc hc.2, Nat.add_zero]

lemma recordAlert_type (st : Analytics) (a : Alert) (k : String) :
    (recordAlert st a).attack_counts_by_type k =
      st.attack_counts_by_type k + (if a.attack_type = k then 1 else 0) := by
  unfold recordAlert
  dsimp only
  by_cases hsrc : a.source ∈ ECU_NAMES <;>
    [rw [if_pos hsrc]; rw [if_neg hsrc]] <;> (try dsimp only) <;> unfold incr
  all_goals
    by_cases hk : k = a.attack_type
  · subst hk
    rw [if_pos rfl, if_pos rfl]
  · rw [if_neg hk, if_neg fun h => hk h.symm, Nat.add_zero]
  · subst hk
    rw [if_pos rfl, if_pos rfl]
  · rw [if_neg hk, if_neg fun h => hk h.symm, Nat.add_zero]

lemma recordAlert_attacker (st : Analytics) (a : Alert) (k : String) :
    (recordAlert st a).attack_counts_by_attacker k =
      st.attack_counts_by_attacker k + (if a.attacker_ip = k then 1 else 0) := by
  unfold recordAlert
  dsimp only
  by_cases hsrc : a.source ∈ ECU_NAMES <;>
    [rw [if_pos hsrc]; rw [if_neg hsrc]] <;> (try dsimp only) <;> unfold incr
  all_goals
    by_cases hk : k = a.attacker_ip
  · subst hk
    rw [if_pos rfl, if_pos rfl]
  · rw [if_neg hk, if_neg fun h => hk h.symm, Nat.add_zero]
  · subst hk
    rw [if_pos rfl, if_pos rfl]
  · rw [if_neg hk, if_neg fun h => hk h.symm, Nat.add_zero]

lemma foldl_recordAlert_ecu (alerts : List Alert) (st : Analytics) (k : String) :
    (alerts.foldl recordAlert st).attack_counts_by_ecu k =
      st.attack_counts_by_ecu k +
        (alerts.countP fun a => a.source = k ∧ a.source ∈ ECU_NAMES) := by
  induction alerts generalizing st with
  | nil => simp
  | cons a as ih =>
    rw [List.foldl_cons, ih, recordAlert_ecu, List.countP_cons]
    by_cases h : a.source = k ∧ a.source ∈ ECU_NAMES <;> simp [h] <;> omega

lemma foldl_recordAlert_type (alerts : List Alert) (st : Analytics) (k : String) :
    (alerts.foldl recordAlert st).attack_counts_by_type k =
      st.attack_counts_by_type k + (alerts.countP fun a => a.attack_type = k) := by
  induction alerts generalizing st with
  | nil => simp
  | cons a as ih =>
    rw [List.foldl_cons, ih, recordAlert_type, List.countP_cons]
    by_cases h : a.attack_type = k <;> simp [h] <;> omega

lemma foldl_recordAlert_attacker (alerts : List Alert) (st : Analytics) (k : String) :
    (alerts.foldl recordAlert st).attack_counts_by_attacker k =
      st.attack_counts_by_attacker k + (alerts.countP fun a => a.attacker_ip = k) := by
  induction alerts generalizing st with
  | nil => simp
  | cons a as ih =>
    rw [List.foldl_cons, ih, recordAlert_attacker, List.countP_cons]
    by_cases h : a.attacker_ip = k <;> simp [h] <;> omega

lemma update_analytics_ecu (al : List Alert) (ac : Bool) (ts : String)
    (st : Analytics) (k : String) :
    (update_analytics al ac ts st).attack_counts_by_ecu k =
      st.attack_counts_by_ecu k +
        (al.countP fun a => a.source = k ∧ a.source ∈ ECU_NAMES) := by
  unfold update_analytics
  rw [foldl_recordAlert_ecu]

lemma update_analytics_type (al : List Alert) (ac : Bool) (ts : String)
    (st : Analytics) (k : String) :
    (update_analytics al ac ts st).attack_counts_by_type k =
      st.attack_counts_by_type k + (al.countP fun a => a.attack_type = k) := by
  unfold update_analytics
  rw [foldl_recordAlert_type]

lemma update_analytics_attacker (al : List Alert) (ac : Bool) (ts : String)
    (st : Analytics) (k : String) :
    (update_analytics al ac ts st).attack_counts_by_attacker k =
      st.attack_counts_by_attacker k + (al.countP fun a => a.attacker_ip = k) := by
  unfold update_analytics
  rw [foldl_recordAlert_attacker]

/-- The per-tick input of `update_analytics`: the tick's alerts, its
attack-active verdict, and its timestamp. -/
structure Tick where
  alerts : List Alert
  active : Bool
  ts : String

/-- Recording a sequence of ticks: one `update_analytics` call per tick. -/
def replay (ticks : List Tick) (st : Analytics) : Analytics :=
  ticks.foldl (fun s t => update_analytics t.alerts t.active t.ts s) st

lemma replay_ecu (ticks : List Tick) (st : Analytics) (k : String) :
    (replay ticks st).attack_counts_by_ecu k =
      st.attack_counts_by_ecu k +
        (ticks.map fun t =>
          t.alerts.countP fun a => a.source = k ∧ a.source ∈ ECU_NAMES).sum := by
  induction ticks generalizing st with
  | nil => simp [replay]
  | cons t ts ih =>
    rw [replay, List.foldl_cons, ← replay, ih, update_analytics_ecu]
    simp
    omega

lemma replay_type (ticks : List Tick) (st : Analytics) (k : String) :
    (replay ticks st).attack_counts_by_type k =
      st.attack_counts_by_type k +
        (ticks.map fun t => t.alerts.countP fun a => a.attack_type = k).sum := by
  induction ticks generalizing st with
  | nil => simp [replay]
  | cons t ts ih =>
    rw [replay, List.foldl_cons, ← replay, ih, update_analytics_type]
    simp
    omega

lemma replay_attacker (ticks : List Tick) (st : Analytics) (k : String) :
    (replay ticks st).attack_counts_by_attacker k =
      st.attack_counts_by_attacker k +
        (ticks.map fun t => t.alerts.countP fun a => a.attacker_ip = k).sum := by
  induction ticks generalizing st with
  | nil => simp [replay]
  | cons t ts ih =>
    rw [replay, List.foldl_cons, ← replay, ih, update_analytics_attacker]
    simp
    omega

/-- C8: the three ranking counters only ever grow — every `update_analytics`
call leaves each count no smaller — and replaying the same tick sequence
twice from a fresh state yields, for every key, exactly double the count of
one replay. -/
theorem counters_monotone_and_double (ticks : List Tick) (k : String) :
    ((replay (ticks ++ ticks) initAnalytics).attack_counts_by_ecu k =
        2 * (replay ticks initAnalytics).attack_counts_by_ecu k ∧
      (replay (ticks ++ ticks) initAnalytics).attack_counts_by_type k =
        2 * (replay ticks initAnalytics).attack_counts_by_type k ∧
      (replay (ticks ++ ticks) initAnalytics).attack_counts_by_attacker k =
        2 * (replay ticks initAnalytics).attack_counts_by_attacker k) ∧
    (∀ (al : List Alert) (ac : Bool) (ts : String) (st : Analytics),
      st.attack_counts_by_ecu k ≤ (update_analytics al ac ts st).attack_counts_by_ecu k ∧
      st.attack_counts_by_type k ≤ (update_analytics al ac ts st).attack_counts_by_type k ∧
      st.attack_counts_by_attacker k ≤
        (update_analytics al ac ts st).attack_counts_by_attacker k) := by
  constructor
  · refine ⟨?_, ?_, ?_⟩ <;>
      simp [replay_ecu, replay_type, replay_attacker, initAnalytics] <;> omega
  · intro al ac ts st
    rw [update_analytics_ecu, update_analytics_type, update_analytics_attacker]
    omega

/-! ## C10: every alert is attributed to a known ECU -/

/-- Total of the by-ECU counter over the fixed ECU name set. -/
def ecuTotal (st : Analytics) : Nat := (ECU_NAMES.map st.attack_counts_by_ecu).sum

lemma sum_map_incr (l : List String) (f : String → Nat) (s : String) :
    (l.map (incr f s)).sum = (l.map f).sum + l.count s := by
  induction l with
  | nil => simp
  | cons x xs ih =>
    simp only [List.map_cons, List.sum_cons, ih, List.count_cons]
    by_cases h : x = s <;> simp [incr, h] <;> omega

lemma count_ecu_names_eq_one {s : String} (h : s ∈ ECU_NAMES) :
    ECU_NAMES.count s = 1 := by
  simp only [ECU_NAMES, List.mem_cons, List.not_mem_nil, or_false] at h
  rcases h with rfl | rfl | rfl | rfl | rfl | rfl <;> decide

lemma recordAlert_ecuTotal (st : Analytics) (a : Alert) (h : a.source ∈ ECU_NAMES) :
    ecuTotal (recordAlert st a) = ecuTotal st + 1 := by
  unfold recordAlert ecuTotal
  rw [if_pos h]
  dsimp only
  rw [sum_map_incr, count_ecu_names_eq_one h]

lemma foldl_recordAlert_ecuTotal (alerts : List Alert) (st : Analytics)
    (h : ∀ a ∈ alerts, a.source ∈ ECU_NAMES) :
    ecuTotal (alerts.foldl recordAlert st) = ecuTotal st + alerts.length := by
  induction alerts generalizing st with
  | nil => simp
  | cons a as ih =>
    rw [List.foldl_cons, ih _ fun x hx => h x (List.mem_cons_of_mem a hx),
      recordAlert_ecuTotal st a (h a (List.mem_cons_self a as))]
    simp
    omega

/-- Every alert `evaluate_rules` produces names a source from `ECU_NAMES`. -/
lemma evaluate_rules_sources (s : Snapshot) (prev : Option Snapshot)
    (cp : List CanPacket) (ip1 ip2 ip3 : String) :
    ∀ a ∈ (evaluate_rules s prev cp ip1 ip2 ip3).2, a.source ∈ ECU_NAMES := by
  unfold evaluate_rules
  rcases prev with _ | p <;> dsimp only <;> split_ifs <;>
    simp_all [ECU_NAMES]

/-- C10: every alert produced by `evaluate_rules` has a source in the fixed
ECU name set, so `update_analytics` increments the by-ECU counter for every
alert of every tick: the total by-ECU count grows by exactly the number of
alerts, never skipping one. -/
theorem alert_sources_always_counted (s : Snapshot) (prev : Option Snapshot)
    (cp : List CanPacket) (ip1 ip2 ip3 : String) :
    (∀ a ∈ (evaluate_rules s prev cp ip1 ip2 ip3).2, a.source ∈ ECU_NAMES) ∧
    (∀ (ac : Bool) (ts : String) (st : Analytics),
      ecuTotal (update_analytics (evaluate_rules s prev cp ip1 ip2 ip3).2 ac ts st) =
        ecuTotal st + (evaluate_rules s prev cp ip1 ip2 ip3).2.length) := by
  refine ⟨evaluate_rules_sources s prev cp ip1 ip2 ip3, ?_⟩
  intro ac ts st
  unfold update_analytics
  dsimp only
  rw [foldl_recordAlert_ecuTotal _ _ (evaluate_rules_sources s prev cp ip1 ip2 ip3)]
  rfl

end SmartVehicleIDS
